import Mathlib

/-!
Verification of the CPU-side render-pipeline orchestration of the
`raytracer` repository (an egui/glow progressive GPU path tracer).

The development shallowly embeds the state machine of `src/render.rs`
(struct `Raytracer`, the per-frame paint callback of
`RaytracingApp::paint`, `set_scr_size`, `realloc_textures`,
`clear_textures`, `calculate_ray_dirs`, `Raytracer::paint`,
`apply_uniforms`), the camera-flag dynamics of `src/camera.rs`, the
scene mutations of `src/scene.rs`, and `fill_50` of `src/util.rs`.

Modelling conventions:
* `f32` scalars that only flow through equality / threshold tests
  (screen sizes, the field of view) are modelled as rationals `ℚ`;
  the trigonometric sun-direction computation is modelled over `ℝ`.
* `u32` counters are modelled as `Nat`, with the wrap-around of the
  `frame_index += 1` increment made explicit as `% 2 ^ 32`.
* GPU texture contents are modelled symbolically: a texture is either
  freshly (re)allocated storage with undefined contents
  (`tex_image_2d` with no data), cleared to all-zero
  (`clear_buffer_u32_slice` with `[0,0,0,0]`), or holds the output of
  one of the draw passes.
* Each frame produces an ordered event log recording reallocation,
  clears and the draw passes, mirroring the strictly ordered CPU-side
  GL call sequence of one paint callback.
-/

/-- Screen size, `glm::Vec2` with `f32` components (modelled as `ℚ`);
only propagated and compared for equality by the embedded code. -/
structure Vec2 where
  x : ℚ
  y : ℚ
deriving DecidableEq, Repr

/-- Names of the five screen-sized textures owned by `Raytracer`. -/
inductive TexName
  | ray_dirs_texture
  | noise_texture_0
  | noise_texture_1
  | accumulation_texture_0
  | accumulation_texture_1
deriving DecidableEq, Repr

/-- Symbolic contents of a texture. `uninit` is storage allocated by
`tex_image_2d(..., None)` (contents undefined, in particular not
guaranteed zero); `zero` is the result of an explicit clear to
`[0,0,0,0]`; the remaining constructors record which pass last drew
into the texture (the noise and accumulation outputs are tagged with
the `frame_index` current when they were drawn). -/
inductive TexContent
  | uninit
  | zero
  | ray_dirs_out
  | noise_out (frame_index : Nat)
  | accum_out (frame_index : Nat)
deriving DecidableEq, Repr

/-- Contents of the five textures of the pipeline. -/
structure Textures where
  ray_dirs_texture : TexContent
  noise_texture_0 : TexContent
  noise_texture_1 : TexContent
  accumulation_texture_0 : TexContent
  accumulation_texture_1 : TexContent
deriving DecidableEq, Repr

/-- Write `c` into the texture named `n`. -/
def Textures.write (t : Textures) (n : TexName) (c : TexContent) : Textures :=
  match n with
  | .ray_dirs_texture => { t with ray_dirs_texture := c }
  | .noise_texture_0 => { t with noise_texture_0 := c }
  | .noise_texture_1 => { t with noise_texture_1 := c }
  | .accumulation_texture_0 => { t with accumulation_texture_0 := c }
  | .accumulation_texture_1 => { t with accumulation_texture_1 := c }

/-- Read the texture named `n`. -/
def Textures.read (t : Textures) (n : TexName) : TexContent :=
  match n with
  | .ray_dirs_texture => t.ray_dirs_texture
  | .noise_texture_0 => t.noise_texture_0
  | .noise_texture_1 => t.noise_texture_1
  | .accumulation_texture_0 => t.accumulation_texture_0
  | .accumulation_texture_1 => t.accumulation_texture_1

/-- The control fields of `struct Raytracer` (src/render.rs lines
39-44): screen size, first-frame flag, ping-pong parity, frame index
(a `u32`), and the `force_scr_size` override flag. -/
structure Raytracer where
  scr_size : Vec2
  first_frame : Bool
  rendering_to_texture_0 : Bool
  frame_index : Nat
  force_scr_size : Bool
deriving DecidableEq, Repr

/-- The fields of `struct Camera` (src/camera.rs) that the pipeline
orchestration reads and writes: the vertical field of view, the
camera's own copy of the screen size, and the deferred
ray-direction-recalculation flag.  The projection / view matrices
recomputed by `recalc_proj` / `recalc_view` are represented solely by
the `recalculate_ray_dirs` flag those functions set, which is what the
paint callback consumes. -/
structure Camera where
  vertical_fov : ℚ
  scr_size : Vec2
  recalculate_ray_dirs : Bool
deriving DecidableEq, Repr

/-- Constant `f32::EPSILON = 2^-23`, the threshold used by `Camera::set_fov`. -/
def f32_epsilon : ℚ := 1 / 2 ^ 23

/-- Function `Camera::recalc_proj` (src/camera.rs lines 151-161): recomputes the
projection matrices and marks ray directions for recalculation. -/
def Camera.recalc_proj (c : Camera) : Camera :=
  { c with recalculate_ray_dirs := true }

/-- Function `Camera::recalc_view` (src/camera.rs lines 163-167). -/
def Camera.recalc_view (c : Camera) : Camera :=
  { c with recalculate_ray_dirs := true }

/-- Function `Camera::set_fov` (src/camera.rs lines 135-142): no-op when the new
field of view is within `f32::EPSILON` of the current one. -/
def Camera.set_fov (c : Camera) (new_fov : ℚ) : Camera :=
  if |new_fov - c.vertical_fov| ≤ f32_epsilon then c
  else Camera.recalc_proj { c with vertical_fov := new_fov }

/-- Function `Camera::set_scr_size` (src/camera.rs lines 144-149). -/
def Camera.set_scr_size (c : Camera) (new_scr_size : Vec2) : Camera :=
  Camera.recalc_proj { c with scr_size := new_scr_size }

/-- Combined pipeline state: the raytracer control fields, the camera,
and the contents of the GPU textures. -/
structure PState where
  rt : Raytracer
  cam : Camera
  tex : Textures
deriving DecidableEq, Repr

/-- Events recorded during one paint callback, in CPU call order. -/
inductive Ev
  | realloc
  | clear
  | ray_dirs_pass
  | noise_pass (read write : TexName)
  | accum_pass (read write : TexName) (frame_index : Nat)
      (upload_scene upload_settings : Bool)
  | final_pass (read : TexName)
deriving DecidableEq, Repr

/-- External inputs to one paint callback: the viewport size reported
by egui, whether UI text is focused, whether the camera input would
move the camera this frame (the return value of `Camera::update`), the
settings fields the callback reads (`lock_camera`, `fov`), and the
`changed` flags of the settings/scene responses at callback entry. -/
structure FrameInput where
  new_scr_size : Vec2
  ui_focused : Bool
  camera_moved : Bool
  lock_camera : Bool
  fov : ℚ
  scene_changed : Bool
  settings_changed : Bool
deriving DecidableEq, Repr

/-- Function `Raytracer::realloc_textures` (src/render.rs lines 342-355):
re-runs `tex_image_2d` on all five textures, replacing their storage;
the new contents are undefined, not zero. -/
def realloc_textures (_t : Textures) : Textures :=
  { ray_dirs_texture := .uninit
    noise_texture_0 := .uninit
    noise_texture_1 := .uninit
    accumulation_texture_0 := .uninit
    accumulation_texture_1 := .uninit }

/-- Function `Raytracer::clear_textures` (src/render.rs lines 357-375): clears
the two noise textures and the two accumulation textures to all-zero.
The ray-direction texture is not touched. -/
def clear_textures (t : Textures) : Textures :=
  { t with
    noise_texture_0 := .zero
    noise_texture_1 := .zero
    accumulation_texture_0 := .zero
    accumulation_texture_1 := .zero }

/-- Function `Raytracer::set_scr_size` (src/render.rs lines 321-338).  If
`force_scr_size` is set it is cleared and the resize body runs
unconditionally; otherwise a request equal to the current size returns
early.  The resize body stores the new size, forwards it to the
camera (which sets `recalculate_ray_dirs`), resets `frame_index` to 1
and reallocates all textures.  The returned `Bool` reports whether the
resize body ran (`realloc` event). -/
def set_scr_size (s : PState) (new_scr_size : Vec2) : PState × Bool :=
  if s.rt.force_scr_size then
    ({ rt := { s.rt with
                force_scr_size := false
                scr_size := new_scr_size
                frame_index := 1 }
       cam := s.cam.set_scr_size new_scr_size
       tex := realloc_textures s.tex }, true)
  else if s.rt.scr_size = new_scr_size then (s, false)
  else
    ({ rt := { s.rt with scr_size := new_scr_size, frame_index := 1 }
       cam := s.cam.set_scr_size new_scr_size
       tex := realloc_textures s.tex }, true)

/-- Noise-pass input texture (src/render.rs lines 423-430): the side of
the noise ping-pong pair opposite the one about to be written. -/
def noise_read_tex (rt : Raytracer) : TexName :=
  if rt.rendering_to_texture_0 then .noise_texture_1 else .noise_texture_0

/-- Noise-pass render target (src/render.rs lines 447-454). -/
def noise_write_tex (rt : Raytracer) : TexName :=
  if rt.rendering_to_texture_0 then .noise_texture_0 else .noise_texture_1

/-- Accumulation-pass input texture (src/render.rs lines 499-507): the
accumulation buffer that is not being rendered to. -/
def accum_read_tex (rt : Raytracer) : TexName :=
  if rt.rendering_to_texture_0
  then .accumulation_texture_1 else .accumulation_texture_0

/-- Accumulation-pass render target (src/render.rs lines 515-522). -/
def accum_write_tex (rt : Raytracer) : TexName :=
  if rt.rendering_to_texture_0
  then .accumulation_texture_0 else .accumulation_texture_1

/-- Post-process input (src/render.rs lines 555-563): the accumulation
buffer that was just rendered to. -/
def final_read_tex (rt : Raytracer) : TexName :=
  if rt.rendering_to_texture_0
  then .accumulation_texture_0 else .accumulation_texture_1

/-- The noise pass of `Raytracer::paint` (src/render.rs lines 420-462):
draws the new noise texture into the write side of the noise pair,
sampling the read side. -/
def noise_step (s : PState) : PState × Ev :=
  ({ s with
     tex := s.tex.write (noise_write_tex s.rt) (.noise_out s.rt.frame_index) },
   .noise_pass (noise_read_tex s.rt) (noise_write_tex s.rt))

/-- The accumulation pass of `Raytracer::paint` (src/render.rs lines
464-530) together with `apply_uniforms` (lines 580-761): the scene
uniform block is uploaded when `first_frame || scene.response.changed`,
the world/settings block when `first_frame || settings.response.changed`;
the pass draws into the accumulation write side, sampling the ray
directions texture, the just-generated noise and the opposite
accumulation side. -/
def accum_step (s : PState) (inp : FrameInput) : PState × Ev :=
  ({ s with
     tex := s.tex.write (accum_write_tex s.rt) (.accum_out s.rt.frame_index) },
   .accum_pass (accum_read_tex s.rt) (accum_write_tex s.rt) s.rt.frame_index
     (s.rt.first_frame || inp.scene_changed)
     (s.rt.first_frame || inp.settings_changed))

/-- The post-process pass of `Raytracer::paint` (src/render.rs lines
534-565) followed by the end-of-paint state update (lines 571-573):
`first_frame = false`, `frame_index += 1` (a `u32` increment), and the
ping-pong parity flip. -/
def final_step (s : PState) : PState × Ev :=
  ({ s with
     rt := { s.rt with
             first_frame := false
             frame_index := (s.rt.frame_index + 1) % 2 ^ 32
             rendering_to_texture_0 := !s.rt.rendering_to_texture_0 } },
   .final_pass (final_read_tex s.rt))

/-- Function `Raytracer::paint` (src/render.rs lines 418-576): noise pass, then
accumulation pass, then post-process, then the counter updates. -/
def Raytracer.paint (s : PState) (inp : FrameInput) : PState × List Ev :=
  let s1 := (noise_step s).1
  let s2 := (accum_step s1 inp).1
  let s3 := (final_step s2).1
  (s3, [(noise_step s).2, (accum_step s1 inp).2, (final_step s2).2])

/-- Function `Raytracer::calculate_ray_dirs` (src/render.rs lines 379-414):
clears and redraws the ray-direction texture from the camera's inverse
matrices. -/
def calculate_ray_dirs (s : PState) : PState :=
  { s with tex := s.tex.write .ray_dirs_texture .ray_dirs_out }

/-- The camera block of the paint callback (src/render.rs lines
135-149), which runs only when `lock_camera` is false: synchronise the
camera FOV from the settings; if UI text is not focused and
`Camera::update` reports movement, reset `frame_index` to 1 and clear
the noise/accumulation textures; finally, if the camera requests it,
recompute the ray-direction texture and clear the request flag. -/
def camera_block (s : PState) (inp : FrameInput) : PState × List Ev :=
  if inp.lock_camera then (s, [])
  else
    let cam1 := s.cam.set_fov inp.fov
    let moved := !inp.ui_focused && inp.camera_moved
    let s2 :=
      if moved then
        { rt := { s.rt with frame_index := 1 }
          cam := cam1.recalc_view
          tex := clear_textures s.tex }
      else { s with cam := cam1 }
    let evs2 := if moved then [Ev.clear] else []
    if s2.cam.recalculate_ray_dirs then
      ({ calculate_ray_dirs s2 with
         cam := { s2.cam with recalculate_ray_dirs := false } },
       evs2 ++ [Ev.ray_dirs_pass])
    else (s2, evs2)

/-- The settings/scene invalidation check of the paint callback
(src/render.rs lines 151-154): if either response's `changed` flag is
set, reset `frame_index` to 1 and clear the noise/accumulation
textures. -/
def signal_block (s : PState) (inp : FrameInput) : PState × List Ev :=
  if inp.settings_changed || inp.scene_changed then
    ({ s with
       rt := { s.rt with frame_index := 1 }
       tex := clear_textures s.tex }, [Ev.clear])
  else (s, [])

/-- One whole paint callback (src/render.rs lines 122-159) in CPU call
order: `set_scr_size`, `Raytracer::paint`, the camera block, the
settings/scene invalidation check.  The callback ends by resetting the
two responses (`settings.response.reset(); scene.response.reset()`,
whose `reset_state` implementations in src/settings.rs lines 126-133
and src/scene.rs lines 112-119 set `changed` back to `false`), so the
`changed` flags seen by the next frame are fresh per-frame inputs. -/
def frame (s : PState) (inp : FrameInput) : PState × List Ev :=
  let s1 := (set_scr_size s inp.new_scr_size).1
  let s2 := (Raytracer.paint s1 inp).1
  let s3 := (camera_block s2 inp).1
  ((signal_block s3 inp).1,
   (if (set_scr_size s inp.new_scr_size).2 then [Ev.realloc] else []) ++
     (Raytracer.paint s1 inp).2 ++ (camera_block s2 inp).2 ++
     (signal_block s3 inp).2)

/-- The pipeline state immediately before the accumulation draw of a
frame: after `set_scr_size` and the noise pass, before
`gl.draw_arrays` into the accumulation framebuffer. -/
def before_accum (s : PState) (inp : FrameInput) : PState :=
  (noise_step (set_scr_size s inp.new_scr_size).1).1

/-- Run a sequence of frames, collecting the per-frame event logs. -/
def run_frames_log : PState → List FrameInput → PState × List (List Ev)
  | s, [] => (s, [])
  | s, inp :: rest =>
    ((run_frames_log (frame s inp).1 rest).1,
     (frame s inp).2 :: (run_frames_log (frame s inp).1 rest).2)

/-- Run a sequence of frames, returning the final state. -/
def run_frames (s : PState) (inputs : List FrameInput) : PState :=
  (run_frames_log s inputs).1

/-- The state of a freshly constructed pipeline: `Raytracer::new`
(src/render.rs lines 167-295) allocates all textures without data and
then immediately runs the initial ray-direction computation, and
`Camera::new` (src/camera.rs lines 35-68) starts with
`recalculate_ray_dirs = false`.  `fov` stands for the `f32` constant
`DEFAULT_FOV_DEG.to_radians()`. -/
def init_pstate (fov : ℚ) (scr_size : Vec2) : PState :=
  { rt := { scr_size
            first_frame := true
            rendering_to_texture_0 := true
            frame_index := 1
            force_scr_size := false }
    cam := { vertical_fov := fov, scr_size, recalculate_ray_dirs := false }
    tex := { ray_dirs_texture := .ray_dirs_out
             noise_texture_0 := .uninit
             noise_texture_1 := .uninit
             accumulation_texture_0 := .uninit
             accumulation_texture_1 := .uninit } }

/-- Enum `ObjectType` (src/scene.rs lines 46-60), `repr(u32)`. -/
inductive ObjectType
  | Sphere
  | Box
deriving DecidableEq, Repr

/-- Enum `MaterialType` (src/scene.rs lines 68-83), `repr(u32)`. -/
inductive MaterialType
  | Solid
  | Emissive
  | Transmissive
deriving DecidableEq, Repr

/-- A `glm::Vec3` of `f32` components, modelled over `ℚ`. -/
structure Vec3 where
  x : ℚ
  y : ℚ
  z : ℚ
deriving DecidableEq, Repr

/-- A `glm::Mat4`: sixteen `f32` entries in column-major order,
modelled over `ℚ`.  The scene mutations only push, clone and remove
whole matrices, so no matrix arithmetic is needed here. -/
structure Mat4 where
  entries : List ℚ
deriving DecidableEq, Repr

/-- Matrix `glm::identity()` as pushed by `Scene::new_object`. -/
def Mat4.identity : Mat4 :=
  ⟨[1, 0, 0, 0, 0, 1, 0, 0, 0, 0, 1, 0, 0, 0, 0, 1]⟩

/-- The data fields of `struct Scene` (src/scene.rs lines 13-44) that
the object mutations and the GPU upload read: the selected index and
the parallel per-object arrays.  The UI-only fields (`response`,
modal state) are not part of the object store. -/
structure Scene where
  selected : Nat
  name : List String
  ty : List ObjectType
  position : List Vec3
  rotation : List Vec3
  scale : List Vec3
  mat_ty : List MaterialType
  mat_color : List Vec3
  mat_roughness : List ℚ
  mat_emissive_strength : List ℚ
  mat_transmissive_opacity : List ℚ
  mat_transmissive_ior : List ℚ
  transform : List Mat4
  inv_transform : List Mat4
  normal_transform : List Mat4
deriving DecidableEq, Repr

/-- Function `Scene::len` (src/scene.rs lines 153-155). -/
def Scene.len (s : Scene) : Nat := s.name.length

/-- Function `Scene::new_object` (src/scene.rs lines 410-435): no-op at 50 or
more objects, otherwise pushes a default sphere onto every parallel
array and selects it. -/
def Scene.new_object (s : Scene) : Scene :=
  if 50 ≤ s.len then s
  else
    { s with
      name := s.name ++ ["Sphere"]
      ty := s.ty ++ [.Sphere]
      position := s.position ++ [⟨0, 0, 0⟩]
      rotation := s.rotation ++ [⟨0, 0, 0⟩]
      scale := s.scale ++ [⟨1, 1, 1⟩]
      mat_ty := s.mat_ty ++ [.Solid]
      mat_color := s.mat_color ++ [⟨9/10, 9/10, 9/10⟩]
      mat_roughness := s.mat_roughness ++ [1/2]
      mat_emissive_strength := s.mat_emissive_strength ++ [1]
      mat_transmissive_ior := s.mat_transmissive_ior ++ [1333/1000]
      mat_transmissive_opacity := s.mat_transmissive_opacity ++ [1/10]
      transform := s.transform ++ [Mat4.identity]
      inv_transform := s.inv_transform ++ [Mat4.identity]
      normal_transform := s.normal_transform ++ [Mat4.identity]
      selected := s.name.length }

/-- Function `Scene::duplicate_object` (src/scene.rs lines 437-468): no-op on an
empty scene or at 50 or more objects, otherwise pushes a clone of the
selected object onto every parallel array and selects it.  The Rust
indexing `self.name[i]` requires `selected < len`; the model uses
`getD`, which agrees with it under that invariant. -/
def Scene.duplicate_object (s : Scene) : Scene :=
  if s.len < 1 ∨ 50 ≤ s.len then s
  else
    let i := s.selected
    { s with
      name := s.name ++ [s.name.getD i "" ++ " copy"]
      ty := s.ty ++ [s.ty.getD i .Sphere]
      position := s.position ++ [s.position.getD i ⟨0, 0, 0⟩]
      rotation := s.rotation ++ [s.rotation.getD i ⟨0, 0, 0⟩]
      scale := s.scale ++ [s.scale.getD i ⟨0, 0, 0⟩]
      mat_ty := s.mat_ty ++ [s.mat_ty.getD i .Solid]
      mat_color := s.mat_color ++ [s.mat_color.getD i ⟨0, 0, 0⟩]
      mat_roughness := s.mat_roughness ++ [s.mat_roughness.getD i 0]
      mat_emissive_strength :=
        s.mat_emissive_strength ++ [s.mat_emissive_strength.getD i 0]
      mat_transmissive_ior :=
        s.mat_transmissive_ior ++ [s.mat_transmissive_ior.getD i 0]
      mat_transmissive_opacity :=
        s.mat_transmissive_opacity ++ [s.mat_transmissive_opacity.getD i 0]
      transform := s.transform ++ [s.transform.getD i Mat4.identity]
      inv_transform := s.inv_transform ++ [s.inv_transform.getD i Mat4.identity]
      normal_transform :=
        s.normal_transform ++ [s.normal_transform.getD i Mat4.identity]
      selected := s.name.length }

/-- Function `Scene::delete_object` (src/scene.rs lines 470-495): no-op on an
empty scene, otherwise removes the selected index from every parallel
array and moves the selection to `selected.saturating_sub(1)` (which is
Lean's truncated `Nat` subtraction). -/
def Scene.delete_object (s : Scene) : Scene :=
  if s.len < 1 then s
  else
    let i := s.selected
    { s with
      name := s.name.eraseIdx i
      ty := s.ty.eraseIdx i
      position := s.position.eraseIdx i
      rotation := s.rotation.eraseIdx i
      scale := s.scale.eraseIdx i
      mat_ty := s.mat_ty.eraseIdx i
      mat_color := s.mat_color.eraseIdx i
      mat_roughness := s.mat_roughness.eraseIdx i
      mat_emissive_strength := s.mat_emissive_strength.eraseIdx i
      mat_transmissive_ior := s.mat_transmissive_ior.eraseIdx i
      mat_transmissive_opacity := s.mat_transmissive_opacity.eraseIdx i
      transform := s.transform.eraseIdx i
      inv_transform := s.inv_transform.eraseIdx i
      normal_transform := s.normal_transform.eraseIdx i
      selected := i - 1 }

/-- Function `fill_50` (src/util.rs lines 109-113): copies the slice into the
front of a 50-element array of `T::default()` values.  The Rust
`copy_from_slice` panics when the slice is longer than 50, modelled by
`none`. -/
def fill_50 {T : Type} (dflt : T) (sl : List T) : Option (List T) :=
  if sl.length ≤ 50 then some (sl ++ List.replicate (50 - sl.length) dflt)
  else none

/-- The parallel-array well-formedness of a `Scene`: every per-object
array has the same length as `name`, and a non-empty scene has its
selected index in bounds. -/
def Scene.Inv (s : Scene) : Prop :=
  s.ty.length = s.name.length ∧
  s.position.length = s.name.length ∧
  s.rotation.length = s.name.length ∧
  s.scale.length = s.name.length ∧
  s.mat_ty.length = s.name.length ∧
  s.mat_color.length = s.name.length ∧
  s.mat_roughness.length = s.name.length ∧
  s.mat_emissive_strength.length = s.name.length ∧
  s.mat_transmissive_opacity.length = s.name.length ∧
  s.mat_transmissive_ior.length = s.name.length ∧
  s.transform.length = s.name.length ∧
  s.inv_transform.length = s.name.length ∧
  s.normal_transform.length = s.name.length ∧
  (0 < s.len → s.selected < s.len)

instance (s : Scene) : Decidable s.Inv := by
  unfold Scene.Inv Scene.len
  infer_instance

/-- The GPU objects created by `Raytracer::new` (src/render.rs lines
167-295): four shader programs, four vertex arrays, four framebuffers
plus the clear framebuffer, and five textures. -/
inductive GlObj
  | clear_fbo
  | ray_dirs_fbo
  | ray_dirs_texture
  | ray_dirs_program
  | ray_dirs_verts
  | noise_fbo
  | noise_texture_0
  | noise_texture_1
  | noise_program
  | noise_verts
  | accumulation_fbo
  | accumulation_texture_0
  | accumulation_texture_1
  | program
  | verts
  | final_program
  | final_verts
deriving DecidableEq, Repr

/-- Every GPU object created during `Raytracer::new`, in creation
order (src/render.rs lines 170-291). -/
def created_objects : List GlObj :=
  [.ray_dirs_program, .noise_program, .program, .final_program,
   .ray_dirs_verts, .noise_verts, .verts, .final_verts,
   .ray_dirs_fbo, .ray_dirs_texture,
   .noise_fbo, .noise_texture_0, .noise_texture_1,
   .accumulation_fbo, .accumulation_texture_0, .accumulation_texture_1,
   .clear_fbo]

/-- The GPU objects deleted by `Raytracer::destroy` (src/render.rs
lines 299-317), in deletion order. -/
def destroyed_objects : List GlObj :=
  [.clear_fbo,
   .ray_dirs_fbo, .ray_dirs_texture, .ray_dirs_program, .ray_dirs_verts,
   .accumulation_fbo, .accumulation_texture_0, .accumulation_texture_1,
   .program, .verts,
   .final_program, .final_verts]

/-- The sun-direction derivation of `Raytracer::apply_uniforms`
(src/render.rs lines 705-716): spherical angles to a unit vector,
normalised by the explicit magnitude computation.  The `f32`
trigonometry is idealised over `ℝ`. -/
noncomputable def sun_dir (rotation elevation : ℝ) : ℝ × ℝ × ℝ :=
  let beta_cos := Real.cos elevation
  let x := Real.cos rotation * beta_cos
  let y := Real.sin elevation
  let z := Real.sin rotation * beta_cos
  let mag := Real.sqrt (x ^ 2 + y ^ 2 + z ^ 2)
  (x / mag, y / mag, z / mag)

/-- A scene with no objects (`Scene::default()`). -/
def scene_empty : Scene :=
  { selected := 0, name := [], ty := [], position := [], rotation := []
    scale := [], mat_ty := [], mat_color := [], mat_roughness := []
    mat_emissive_strength := [], mat_transmissive_opacity := []
    mat_transmissive_ior := [], transform := [], inv_transform := []
    normal_transform := [] }

/-- A scene holding the maximum of 50 objects. -/
def scene_full : Scene :=
  { selected := 0
    name := List.replicate 50 "Sphere"
    ty := List.replicate 50 .Sphere
    position := List.replicate 50 ⟨0, 0, 0⟩
    rotation := List.replicate 50 ⟨0, 0, 0⟩
    scale := List.replicate 50 ⟨1, 1, 1⟩
    mat_ty := List.replicate 50 .Solid
    mat_color := List.replicate 50 ⟨9/10, 9/10, 9/10⟩
    mat_roughness := List.replicate 50 (1/2)
    mat_emissive_strength := List.replicate 50 1
    mat_transmissive_opacity := List.replicate 50 (1/10)
    mat_transmissive_ior := List.replicate 50 (1333/1000)
    transform := List.replicate 50 Mat4.identity
    inv_transform := List.replicate 50 Mat4.identity
    normal_transform := List.replicate 50 Mat4.identity }

/-- Recognise the accumulation-pass event. -/
def Ev.isAccum : Ev → Bool
  | .accum_pass .. => true
  | _ => false

/-- Whether an event's sampled texture differs from its render target;
vacuously true for events that are not ping-pong draw passes. -/
def Ev.distinct_rw : Ev → Bool
  | .noise_pass r w => r != w
  | .accum_pass r w _ _ _ => r != w
  | _ => true

/-- Whether a `set_scr_size` call with this frame's viewport size runs
the resize body (reallocating every texture and resetting the frame
index). -/
def resize_fires (s : PState) (inp : FrameInput) : Bool :=
  (set_scr_size s inp.new_scr_size).2

/-- Whether `Camera::set_fov` called with this frame's settings FOV
changes the projection (difference above `f32::EPSILON`). -/
def fov_changes (c : Camera) (inp : FrameInput) : Bool :=
  !decide (|inp.fov - c.vertical_fov| ≤ f32_epsilon)

/-- The conditions under which the paint callback of a frame ends up
with `camera.recalculate_ray_dirs` set when the camera block reaches
its check: a pending request from an earlier frame, a resize this
frame, an FOV change this frame, or a camera move this frame. -/
def ray_dirs_trigger (s : PState) (inp : FrameInput) : Bool :=
  s.cam.recalculate_ray_dirs || resize_fires s inp ||
    fov_changes s.cam inp || (!inp.ui_focused && inp.camera_moved)

/-- The `changed` flags consulted at src/render.rs line 151, as one
signal. -/
def response_signal (inp : FrameInput) : Bool :=
  inp.settings_changed || inp.scene_changed

/-- Whether the camera actually moves during the frame: `lock_camera`
skips the whole camera block and a focused UI short-circuits the
`Camera::update` call (src/render.rs lines 135-143). -/
def camera_moves (inp : FrameInput) : Bool :=
  !inp.lock_camera && (!inp.ui_focused && inp.camera_moved)

/-- The per-frame inputs that raise no change signal with respect to a
pipeline whose current screen size is `sz`: the viewport size is
unchanged, the camera does not move, and neither response reports a
change. -/
def NoSignalInput (sz : Vec2) (inp : FrameInput) : Prop :=
  inp.new_scr_size = sz ∧ inp.camera_moved = false ∧
    inp.scene_changed = false ∧ inp.settings_changed = false

/-- Scene-block upload flags carried by the accumulation passes of an
event log. -/
def scene_upload_flags (evs : List Ev) : List Bool :=
  evs.filterMap fun e =>
    match e with
    | .accum_pass _ _ _ us _ => some us
    | _ => none

/-- World/settings-block upload flags carried by the accumulation
passes of an event log. -/
def settings_upload_flags (evs : List Ev) : List Bool :=
  evs.filterMap fun e =>
    match e with
    | .accum_pass _ _ _ _ ut => some ut
    | _ => none

/-- Placeholder frame input used with `List.getD`. -/
def default_input : FrameInput :=
  { new_scr_size := ⟨0, 0⟩, ui_focused := false, camera_moved := false
    lock_camera := false, fov := 0, scene_changed := false
    settings_changed := false }

/-- A pipeline state mid-run, used to instantiate universally
quantified theorems at a concrete input. -/
def c8_state : PState :=
  { rt := { scr_size := ⟨800, 600⟩, first_frame := false
            rendering_to_texture_0 := false, frame_index := 42
            force_scr_size := false }
    cam := { vertical_fov := 1, scr_size := ⟨800, 600⟩
             recalculate_ray_dirs := false }
    tex := { ray_dirs_texture := .ray_dirs_out
             noise_texture_0 := .noise_out 41
             noise_texture_1 := .noise_out 40
             accumulation_texture_0 := .accum_out 41
             accumulation_texture_1 := .accum_out 40 } }

/-- A no-signal frame input at the `800 × 600` viewport, with the two
response flags passed as arguments. -/
def quiet_input (sc st : Bool) : FrameInput :=
  { new_scr_size := ⟨800, 600⟩, ui_focused := false, camera_moved := false
    lock_camera := false, fov := 1, scene_changed := sc
    settings_changed := st }

instance (sz : Vec2) (inp : FrameInput) : Decidable (NoSignalInput sz inp) := by
  unfold NoSignalInput
  infer_instance

/-- A concrete freshly constructed pipeline state. -/
def c2_init : PState := init_pstate 1 ⟨800, 600⟩

/-- Two quiet frames for the frame-advance witness. -/
def c2_inputs : List FrameInput :=
  [quiet_input false false, quiet_input false false]

/-- A mid-run pipeline state used by the invalidation witness and the
resize counterexample: `frame_index = 5`, textures holding earlier
pass outputs. -/
def c1_state : PState :=
  { rt := { scr_size := ⟨800, 600⟩, first_frame := false
            rendering_to_texture_0 := true, frame_index := 5
            force_scr_size := false }
    cam := { vertical_fov := 1, scr_size := ⟨800, 600⟩
             recalculate_ray_dirs := false }
    tex := { ray_dirs_texture := .ray_dirs_out
             noise_texture_0 := .noise_out 4
             noise_texture_1 := .noise_out 3
             accumulation_texture_0 := .accum_out 4
             accumulation_texture_1 := .accum_out 3 } }

/-- A frame input that raises only the scene-changed signal (the
camera is locked, so the camera block is skipped). -/
def c1_scene_input : FrameInput :=
  { new_scr_size := ⟨800, 600⟩, ui_focused := false, camera_moved := false
    lock_camera := true, fov := 1, scene_changed := true
    settings_changed := false }

/-- A frame input that raises only the resized signal (the viewport
shrinks to `640 × 480`). -/
def c1_resize_input : FrameInput :=
  { new_scr_size := ⟨640, 480⟩, ui_focused := false, camera_moved := false
    lock_camera := true, fov := 1, scene_changed := false
    settings_changed := false }

/-- A mid-run pipeline state with no pending ray-direction request,
used by the scheduling witness and counterexample. -/
def c4_state : PState :=
  { rt := { scr_size := ⟨800, 600⟩, first_frame := false
            rendering_to_texture_0 := true, frame_index := 9
            force_scr_size := false }
    cam := { vertical_fov := 1, scr_size := ⟨800, 600⟩
             recalculate_ray_dirs := false }
    tex := { ray_dirs_texture := .ray_dirs_out
             noise_texture_0 := .noise_out 8
             noise_texture_1 := .noise_out 7
             accumulation_texture_0 := .accum_out 8
             accumulation_texture_1 := .accum_out 7 } }

/-- A quiet frame input with the camera locked. -/
def c4_locked_input : FrameInput :=
  { new_scr_size := ⟨800, 600⟩, ui_focused := false, camera_moved := false
    lock_camera := true, fov := 1, scene_changed := false
    settings_changed := false }

/-- A camera-move frame input with the camera unlocked. -/
def c4_move_input : FrameInput :=
  { new_scr_size := ⟨800, 600⟩, ui_focused := false, camera_moved := true
    lock_camera := false, fov := 1, scene_changed := false
    settings_changed := false }

/-- A resize request while the camera is locked. -/
def c4_resize_locked_input : FrameInput :=
  { new_scr_size := ⟨640, 480⟩, ui_focused := false, camera_moved := false
    lock_camera := true, fov := 1, scene_changed := false
    settings_changed := false }

/-- A quiet locked frame at the post-resize viewport size. -/
def c4_quiet_locked_input : FrameInput :=
  { new_scr_size := ⟨640, 480⟩, ui_focused := false, camera_moved := false
    lock_camera := true, fov := 1, scene_changed := false
    settings_changed := false }

lemma camera_block_events (s : PState) (inp : FrameInput) :
    ∀ e ∈ (camera_block s inp).2, e = Ev.clear ∨ e = Ev.ray_dirs_pass := by
  intro e he
  cases h1 : inp.lock_camera with
  | true => simp [camera_block, h1] at he
  | false =>
    cases hm : (!inp.ui_focused && inp.camera_moved) with
    | true =>
      simp [camera_block, h1, hm, Camera.recalc_view] at he
      tauto
    | false =>
      cases hf : (s.cam.set_fov inp.fov).recalculate_ray_dirs with
      | true =>
        simp [camera_block, h1, hm, hf] at he
        tauto
      | false => simp [camera_block, h1, hm, hf] at he

lemma signal_block_events (s : PState) (inp : FrameInput) :
    ∀ e ∈ (signal_block s inp).2, e = Ev.clear := by
  intro e he
  unfold signal_block at he
  split at he <;> simp at he
  exact he

lemma frame_log_eq (s : PState) (inp : FrameInput) :
    (frame s inp).2 =
      (if (set_scr_size s inp.new_scr_size).2 then [Ev.realloc] else []) ++
      [Ev.noise_pass (noise_read_tex (set_scr_size s inp.new_scr_size).1.rt)
          (noise_write_tex (set_scr_size s inp.new_scr_size).1.rt),
       Ev.accum_pass (accum_read_tex (set_scr_size s inp.new_scr_size).1.rt)
          (accum_write_tex (set_scr_size s inp.new_scr_size).1.rt)
          (set_scr_size s inp.new_scr_size).1.rt.frame_index
          ((set_scr_size s inp.new_scr_size).1.rt.first_frame || inp.scene_changed)
          ((set_scr_size s inp.new_scr_size).1.rt.first_frame || inp.settings_changed),
       Ev.final_pass (final_read_tex (set_scr_size s inp.new_scr_size).1.rt)] ++
      (camera_block (Raytracer.paint (set_scr_size s inp.new_scr_size).1 inp).1 inp).2 ++
      (signal_block
        (camera_block (Raytracer.paint (set_scr_size s inp.new_scr_size).1 inp).1 inp).1
        inp).2 := by
  simp [frame, Raytracer.paint, noise_step, accum_step, final_step]

/-- Claim C6: on every frame, both the noise pass and the accumulation
pass sample one side of their ping-pong texture pair and render into
the other side; the sampled texture and the render target are never
the same texture. -/
theorem c6_ping_pong_read_write_distinct :
    ∀ (s : PState) (inp : FrameInput),
      (noise_read_tex s.rt == noise_write_tex s.rt) = false ∧
      (accum_read_tex s.rt == accum_write_tex s.rt) = false ∧
      (frame s inp).2.all Ev.distinct_rw = true := by
  have hdist : ∀ rt : Raytracer,
      (noise_read_tex rt == noise_write_tex rt) = false ∧
      (accum_read_tex rt == accum_write_tex rt) = false := by
    intro rt
    cases h : rt.rendering_to_texture_0 <;>
      simp [noise_read_tex, noise_write_tex, accum_read_tex, accum_write_tex, h]
  intro s inp
  refine ⟨(hdist s.rt).1, (hdist s.rt).2, ?_⟩
  rw [List.all_eq_true]
  intro e hmem
  rw [frame_log_eq] at hmem
  simp only [List.mem_append] at hmem
  rcases hmem with ((h | h) | h) | h
  · split at h <;> simp at h
    subst h
    rfl
  · simp only [List.mem_cons, List.not_mem_nil, or_false] at h
    rcases h with h | h | h <;> subst h <;>
      simp [Ev.distinct_rw, bne_iff_ne, ne_eq, ← beq_eq_false_iff_ne, hdist]
  · rcases camera_block_events _ inp _ h with h2 | h2 <;> subst h2 <;> rfl
  · have h2 := signal_block_events _ inp _ h
    subst h2
    rfl

/-- Claim C7: the `sun_dir` uniform is the normalisation of
`(cos rotation · cos elevation, sin elevation, sin rotation · cos
elevation)`; the direction is already a unit vector, so `sun_dir`
equals the raw derivation, and in particular it is `(1,0,0)` at
rotation = elevation = 0 and `(0,1,0)` at elevation = π/2 (for any
rotation).  The `f32` arithmetic of the source is idealised over the
reals. -/
theorem c7_sun_dir_derivation :
    (∀ r e : ℝ, sun_dir r e =
      (Real.cos r * Real.cos e, Real.sin e, Real.sin r * Real.cos e)) ∧
    sun_dir 0 0 = (1, 0, 0) ∧
    (∀ r : ℝ, sun_dir r (Real.pi / 2) = (0, 1, 0)) := by
  have hmag : ∀ r e : ℝ,
      Real.sqrt ((Real.cos r * Real.cos e) ^ 2 + Real.sin e ^ 2 +
        (Real.sin r * Real.cos e) ^ 2) = 1 := by
    intro r e
    have hr := Real.sin_sq_add_cos_sq r
    have he := Real.sin_sq_add_cos_sq e
    have h1 : (Real.cos r * Real.cos e) ^ 2 + Real.sin e ^ 2 +
        (Real.sin r * Real.cos e) ^ 2 = 1 := by nlinarith [hr, he]
    rw [h1, Real.sqrt_one]
  have hraw : ∀ r e : ℝ, sun_dir r e =
      (Real.cos r * Real.cos e, Real.sin e, Real.sin r * Real.cos e) := by
    intro r e
    unfold sun_dir
    simp only [hmag r e, div_one]
  refine ⟨hraw, ?_, fun r => ?_⟩
  · rw [hraw 0 0]
    simp [Real.cos_zero, Real.sin_zero]
  · rw [hraw r (Real.pi / 2)]
    simp [Real.cos_pi_div_two, Real.sin_pi_div_two]

lemma set_scr_size_force (s : PState) (v : Vec2) :
    (set_scr_size s v).1.rt.force_scr_size = false := by
  unfold set_scr_size
  cases hf : s.rt.force_scr_size with
  | true => simp [hf]
  | false =>
    split
    · simp_all
    · split
      · exact hf
      · exact hf

lemma set_scr_size_first_frame (s : PState) (v : Vec2) :
    (set_scr_size s v).1.rt.first_frame = s.rt.first_frame := by
  unfold set_scr_size
  cases hf : s.rt.force_scr_size with
  | true => simp [hf]
  | false =>
    split
    · simp_all
    · split
      · rfl
      · rfl

lemma paint_rt (s : PState) (inp : FrameInput) :
    (Raytracer.paint s inp).1.rt =
      { s.rt with
        first_frame := false
        frame_index := (s.rt.frame_index + 1) % 2 ^ 32
        rendering_to_texture_0 := !s.rt.rendering_to_texture_0 } := rfl

lemma camera_block_rt (s : PState) (inp : FrameInput) :
    (camera_block s inp).1.rt = s.rt ∨
    (camera_block s inp).1.rt = { s.rt with frame_index := 1 } := by
  unfold camera_block
  cases h1 : inp.lock_camera with
  | true => exact Or.inl rfl
  | false =>
    cases hm : (!inp.ui_focused && inp.camera_moved) with
    | true => simp [Camera.recalc_view, calculate_ray_dirs]
    | false =>
      cases hf : (s.cam.set_fov inp.fov).recalculate_ray_dirs with
      | true => simp [hf, calculate_ray_dirs]
      | false => simp [hf]

lemma signal_block_rt (s : PState) (inp : FrameInput) :
    (signal_block s inp).1.rt = s.rt ∨
    (signal_block s inp).1.rt = { s.rt with frame_index := 1 } := by
  unfold signal_block
  split <;> simp

lemma frame_force_false (s : PState) (inp : FrameInput) :
    (frame s inp).1.rt.force_scr_size = false := by
  have h0 := set_scr_size_force s inp.new_scr_size
  show (signal_block
      (camera_block (Raytracer.paint (set_scr_size s inp.new_scr_size).1 inp).1
        inp).1 inp).1.rt.force_scr_size = false
  rcases signal_block_rt
      (camera_block (Raytracer.paint (set_scr_size s inp.new_scr_size).1 inp).1
        inp).1 inp with h | h <;>
    rw [h] <;>
    rcases camera_block_rt
        (Raytracer.paint (set_scr_size s inp.new_scr_size).1 inp).1 inp
      with h2 | h2 <;>
    simp [h2, paint_rt, h0]

lemma frame_first_frame_false (s : PState) (inp : FrameInput) :
    (frame s inp).1.rt.first_frame = false := by
  show (signal_block
      (camera_block (Raytracer.paint (set_scr_size s inp.new_scr_size).1 inp).1
        inp).1 inp).1.rt.first_frame = false
  rcases signal_block_rt
      (camera_block (Raytracer.paint (set_scr_size s inp.new_scr_size).1 inp).1
        inp).1 inp with h | h <;>
    rw [h] <;>
    rcases camera_block_rt
        (Raytracer.paint (set_scr_size s inp.new_scr_size).1 inp).1 inp
      with h2 | h2 <;>
    simp [h2, paint_rt]

lemma run_frames_force_false (inputs : List FrameInput) :
    ∀ s : PState, s.rt.force_scr_size = false →
      (run_frames s inputs).rt.force_scr_size = false := by
  induction inputs with
  | nil => intro s hs; exact hs
  | cons inp rest ih =>
    intro s _
    show (run_frames_log (frame s inp).1 rest).1.rt.force_scr_size = false
    exact ih (frame s inp).1 (frame_force_false s inp)

/-- Claim C8: a resize request equal to the current screen size is a
silent no-op.  `Raytracer::set_scr_size` only skips the equal-size
check when `force_scr_size` is set, and no code in the program ever
sets `force_scr_size` to `true`: it starts `false` at construction and
every frame leaves it `false`, so on every reachable pipeline state the
equal-size request returns early, reallocating nothing, keeping
`frame_index`, and leaving the whole state unchanged. -/
theorem c8_equal_size_resize_noop :
    (∀ (fov : ℚ) (sz : Vec2) (inputs : List FrameInput),
      (run_frames (init_pstate fov sz) inputs).rt.force_scr_size = false) ∧
    (∀ s : PState, s.rt.force_scr_size = false →
      set_scr_size s s.rt.scr_size = (s, false)) := by
  constructor
  · intro fov sz inputs
    exact run_frames_force_false inputs (init_pstate fov sz) rfl
  · intro s hs
    unfold set_scr_size
    simp [hs]

/-- Concrete instantiation of the equal-size-resize theorem: on a
mid-run state with `frame_index = 42`, requesting the current
`800 × 600` size changes nothing and performs no reallocation. -/
theorem c8_equal_size_resize_noop_witness :
    c8_state.rt.force_scr_size = false ∧
    set_scr_size c8_state c8_state.rt.scr_size = (c8_state, false) :=
  ⟨rfl, c8_equal_size_resize_noop.2 c8_state rfl⟩

/-- Claim C3 (code bug evidence): `Raytracer::destroy` deletes each of
the objects it names exactly once (the deletion list has no
duplicates) and deletes only objects created by `Raytracer::new`, but
it omits all five GPU objects of the noise pass — `noise_fbo`,
`noise_texture_0`, `noise_texture_1`, `noise_program` and
`noise_verts` are created at construction and never deleted. -/
theorem c3_destroy_leaks_noise_objects :
    destroyed_objects.all (fun o => destroyed_objects.count o == 1) = true ∧
    destroyed_objects.all (fun o => created_objects.contains o) = true ∧
    created_objects.filter (fun o => !destroyed_objects.contains o) =
      [.noise_program, .noise_verts, .noise_fbo, .noise_texture_0,
       .noise_texture_1] ∧
    created_objects.contains GlObj.noise_fbo = true ∧
    destroyed_objects.contains GlObj.noise_fbo = false ∧
    created_objects.contains GlObj.noise_texture_0 = true ∧
    destroyed_objects.contains GlObj.noise_texture_0 = false ∧
    created_objects.contains GlObj.noise_texture_1 = true ∧
    destroyed_objects.contains GlObj.noise_texture_1 = false ∧
    created_objects.contains GlObj.noise_program = true ∧
    destroyed_objects.contains GlObj.noise_program = false ∧
    created_objects.contains GlObj.noise_verts = true ∧
    destroyed_objects.contains GlObj.noise_verts = false := by
  decide

lemma length_eraseIdx_le {α : Type} (l : List α) (i : Nat) :
    (l.eraseIdx i).length ≤ l.length :=
  List.length_eraseIdx_le l i

/-- Claim C9: the scene's object count never exceeds 50.
`Scene::new_object` and `Scene::duplicate_object` are no-ops at 50
objects (and `duplicate_object` also on an empty scene), every
mutation preserves the `≤ 50` bound, and `fill_50` pads every `≤ 50`
scene array to exactly 50 elements for the GPU upload. -/
theorem c9_scene_capacity_bound :
    (∀ s : Scene, 50 ≤ s.len →
      s.new_object = s ∧ s.duplicate_object = s) ∧
    (∀ s : Scene, s.len = 0 → s.duplicate_object = s) ∧
    (∀ s : Scene, s.len ≤ 50 →
      s.new_object.len ≤ 50 ∧ s.duplicate_object.len ≤ 50 ∧
        s.delete_object.len ≤ 50) ∧
    (∀ (T : Type) (d : T) (sl : List T), sl.length ≤ 50 →
      fill_50 d sl = some (sl ++ List.replicate (50 - sl.length) d) ∧
        (sl ++ List.replicate (50 - sl.length) d).length = 50) := by
  refine ⟨fun s h => ⟨?_, ?_⟩, fun s h => ?_, fun s h => ⟨?_, ?_, ?_⟩,
    fun T d sl h => ⟨?_, ?_⟩⟩
  · rw [Scene.new_object, if_pos h]
  · rw [Scene.duplicate_object, if_pos (Or.inr h)]
  · rw [Scene.duplicate_object, if_pos (Or.inl (by omega))]
  · by_cases h50 : 50 ≤ s.len
    · rw [Scene.new_object, if_pos h50]; exact h
    · rw [Scene.new_object, if_neg h50]
      simp only [Scene.len, List.length_append, List.length_cons,
        List.length_nil] at h h50 ⊢
      omega
  · by_cases hc : s.len < 1 ∨ 50 ≤ s.len
    · rw [Scene.duplicate_object, if_pos hc]; exact h
    · rw [Scene.duplicate_object, if_neg hc]
      simp only [Scene.len, List.length_append, List.length_cons,
        List.length_nil] at h hc ⊢
      omega
  · by_cases h1 : s.len < 1
    · rw [Scene.delete_object, if_pos h1]; exact h
    · rw [Scene.delete_object, if_neg h1]
      exact le_trans (length_eraseIdx_le s.name s.selected) h
  · rw [fill_50, if_pos h]
  · simp [List.length_append, List.length_replicate]
    omega

/-- Concrete instantiation of the capacity theorem: a full 50-object
scene absorbs `new_object` and `duplicate_object`, the empty scene
absorbs `duplicate_object`, and a two-element array is padded to 50
entries. -/
theorem c9_scene_capacity_bound_witness :
    scene_full.new_object = scene_full ∧
    scene_full.duplicate_object = scene_full ∧
    scene_empty.duplicate_object = scene_empty ∧
    scene_empty.new_object.len ≤ 50 ∧
    fill_50 (0 : ℚ) [1, 2] =
      some ([1, 2] ++ List.replicate (50 - [(1 : ℚ), 2].length) 0) :=
  ⟨(c9_scene_capacity_bound.1 scene_full (by decide)).1,
   (c9_scene_capacity_bound.1 scene_full (by decide)).2,
   c9_scene_capacity_bound.2.1 scene_empty (by decide),
   (c9_scene_capacity_bound.2.2.1 scene_empty (by decide)).1,
   (c9_scene_capacity_bound.2.2.2 ℚ 0 [1, 2] (by decide)).1⟩

/-- Claim C10: every scene mutation preserves the parallel-array
well-formedness — all per-object arrays keep equal lengths and a
non-empty scene keeps its selected index in bounds — and
`Scene::delete_object` on an empty scene is a no-op. -/
theorem c10_scene_parallel_invariant :
    ∀ s : Scene, s.Inv →
      s.new_object.Inv ∧ s.duplicate_object.Inv ∧ s.delete_object.Inv ∧
      (s.len = 0 → s.delete_object = s) := by
  intro s hInv
  obtain ⟨h1, h2, h3, h4, h5, h6, h7, h8, h9, h10, h11, h12, h13, hsel⟩ := hInv
  refine ⟨?_, ?_, ?_, fun h0 => ?_⟩
  · by_cases h50 : 50 ≤ s.len
    · rw [Scene.new_object, if_pos h50]
      exact ⟨h1, h2, h3, h4, h5, h6, h7, h8, h9, h10, h11, h12, h13, hsel⟩
    · rw [Scene.new_object, if_neg h50]
      refine ⟨?_, ?_, ?_, ?_, ?_, ?_, ?_, ?_, ?_, ?_, ?_, ?_, ?_, ?_⟩ <;>
        simp [Scene.Inv, Scene.len, List.length_append, h1, h2, h3, h4, h5,
          h6, h7, h8, h9, h10, h11, h12, h13]
  · by_cases hc : s.len < 1 ∨ 50 ≤ s.len
    · rw [Scene.duplicate_object, if_pos hc]
      exact ⟨h1, h2, h3, h4, h5, h6, h7, h8, h9, h10, h11, h12, h13, hsel⟩
    · rw [Scene.duplicate_object, if_neg hc]
      refine ⟨?_, ?_, ?_, ?_, ?_, ?_, ?_, ?_, ?_, ?_, ?_, ?_, ?_, ?_⟩ <;>
        simp [Scene.Inv, Scene.len, List.length_append, h1, h2, h3, h4, h5,
          h6, h7, h8, h9, h10, h11, h12, h13]
  · by_cases hc : s.len < 1
    · rw [Scene.delete_object, if_pos hc]
      exact ⟨h1, h2, h3, h4, h5, h6, h7, h8, h9, h10, h11, h12, h13, hsel⟩
    · rw [Scene.delete_object, if_neg hc]
      simp only [Scene.len] at hc hsel
      have hi : s.selected < s.name.length := hsel (by omega)
      refine ⟨?_, ?_, ?_, ?_, ?_, ?_, ?_, ?_, ?_, ?_, ?_, ?_, ?_, ?_⟩ <;>
        · simp [Scene.Inv, Scene.len, List.length_eraseIdx, h1, h2, h3, h4,
            h5, h6, h7, h8, h9, h10, h11, h12, h13, hi]
          try omega
  · rw [Scene.delete_object, if_pos (show s.len < 1 by omega)]

/-- Concrete instantiation of the parallel-array invariant theorem at
the empty scene. -/
theorem c10_scene_parallel_invariant_witness :
    scene_empty.new_object.Inv ∧ scene_empty.duplicate_object.Inv ∧
    scene_empty.delete_object.Inv ∧
    scene_empty.delete_object = scene_empty :=
  ⟨(c10_scene_parallel_invariant scene_empty (by decide)).1,
   (c10_scene_parallel_invariant scene_empty (by decide)).2.1,
   (c10_scene_parallel_invariant scene_empty (by decide)).2.2.1,
   (c10_scene_parallel_invariant scene_empty (by decide)).2.2.2 rfl⟩

lemma scene_upload_flags_append (l1 l2 : List Ev) :
    scene_upload_flags (l1 ++ l2) =
      scene_upload_flags l1 ++ scene_upload_flags l2 := by
  simp [scene_upload_flags, List.filterMap_append]

lemma settings_upload_flags_append (l1 l2 : List Ev) :
    settings_upload_flags (l1 ++ l2) =
      settings_upload_flags l1 ++ settings_upload_flags l2 := by
  simp [settings_upload_flags, List.filterMap_append]

lemma camera_block_no_accum (s : PState) (inp : FrameInput) :
    scene_upload_flags (camera_block s inp).2 = [] ∧
    settings_upload_flags (camera_block s inp).2 = [] := by
  have h := camera_block_events s inp
  constructor <;>
  · simp only [scene_upload_flags, settings_upload_flags]
    rw [List.filterMap_eq_nil_iff]
    intro e he
    rcases h e he with rfl | rfl <;> rfl

lemma signal_block_no_accum (s : PState) (inp : FrameInput) :
    scene_upload_flags (signal_block s inp).2 = [] ∧
    settings_upload_flags (signal_block s inp).2 = [] := by
  have h := signal_block_events s inp
  constructor <;>
  · simp only [scene_upload_flags, settings_upload_flags]
    rw [List.filterMap_eq_nil_iff]
    intro e he
    rw [h e he]

lemma frame_upload_flags (s : PState) (inp : FrameInput) :
    scene_upload_flags (frame s inp).2 =
      [s.rt.first_frame || inp.scene_changed] ∧
    settings_upload_flags (frame s inp).2 =
      [s.rt.first_frame || inp.settings_changed] := by
  have hcb := camera_block_no_accum
    (Raytracer.paint (set_scr_size s inp.new_scr_size).1 inp).1 inp
  have hsb := signal_block_no_accum
    (camera_block (Raytracer.paint (set_scr_size s inp.new_scr_size).1 inp).1
      inp).1 inp
  have hff := set_scr_size_first_frame s inp.new_scr_size
  rw [frame_log_eq]
  constructor
  · rw [scene_upload_flags_append, scene_upload_flags_append,
      scene_upload_flags_append, hcb.1, hsb.1]
    have hA : scene_upload_flags
        (if (set_scr_size s inp.new_scr_size).2 then [Ev.realloc] else []) =
        [] := by split <;> rfl
    rw [hA, hff]
    rfl
  · rw [settings_upload_flags_append, settings_upload_flags_append,
      settings_upload_flags_append, hcb.2, hsb.2]
    have hA : settings_upload_flags
        (if (set_scr_size s inp.new_scr_size).2 then [Ev.realloc] else []) =
        [] := by split <;> rfl
    rw [hA, hff]
    rfl

lemma run_frames_log_flags :
    ∀ (inputs : List FrameInput) (s : PState) (k : Nat), k < inputs.length →
      scene_upload_flags ((run_frames_log s inputs).2.getD k []) =
        [(decide (k = 0) && s.rt.first_frame) ||
          (inputs.getD k default_input).scene_changed] ∧
      settings_upload_flags ((run_frames_log s inputs).2.getD k []) =
        [(decide (k = 0) && s.rt.first_frame) ||
          (inputs.getD k default_input).settings_changed] := by
  intro inputs
  induction inputs with
  | nil => intro s k hk; simp at hk
  | cons inp rest ih =>
    intro s k hk
    cases k with
    | zero => simpa [run_frames_log] using frame_upload_flags s inp
    | succ n =>
      have hn : n < rest.length := by simpa using hk
      have h := ih (frame s inp).1 n hn
      rw [frame_first_frame_false] at h
      simpa [run_frames_log] using h

/-- Claim C5: in any run of the pipeline from construction, each frame
issues exactly one accumulation pass, and that pass uploads the scene
uniform block exactly on the first frame and on frames whose scene
`changed` flag is set, and uploads the world/settings uniform block
exactly on the first frame and on frames whose settings `changed` flag
is set; on every other frame neither block is uploaded. -/
theorem c5_uniform_block_upload_schedule (fov : ℚ) (sz : Vec2)
    (inputs : List FrameInput) (k : Nat) (hk : k < inputs.length) :
    scene_upload_flags
        ((run_frames_log (init_pstate fov sz) inputs).2.getD k []) =
      [decide (k = 0) || (inputs.getD k default_input).scene_changed] ∧
    settings_upload_flags
        ((run_frames_log (init_pstate fov sz) inputs).2.getD k []) =
      [decide (k = 0) || (inputs.getD k default_input).settings_changed] := by
  have h := run_frames_log_flags inputs (init_pstate fov sz) k hk
  simpa [init_pstate] using h

/-- Concrete instantiation of the upload-schedule theorem: in a
two-frame run whose second frame has the scene flag set and the
settings flag clear, the second accumulation pass uploads the scene
block and not the settings block. -/
theorem c5_uniform_block_upload_schedule_witness :
    scene_upload_flags
        ((run_frames_log (init_pstate 1 ⟨800, 600⟩)
          [quiet_input false false, quiet_input true false]).2.getD 1 []) =
      [true] ∧
    settings_upload_flags
        ((run_frames_log (init_pstate 1 ⟨800, 600⟩)
          [quiet_input false false, quiet_input true false]).2.getD 1 []) =
      [false] := by
  have h := c5_uniform_block_upload_schedule 1 ⟨800, 600⟩
    [quiet_input false false, quiet_input true false] 1 (by decide)
  simpa [quiet_input] using h

lemma set_scr_size_noop (u : PState) (hf : u.rt.force_scr_size = false) :
    set_scr_size u u.rt.scr_size = (u, false) := by
  unfold set_scr_size
  simp [hf]

lemma signal_block_skip (u : PState) (inp : FrameInput)
    (hc : (inp.settings_changed || inp.scene_changed) = false) :
    (signal_block u inp).1 = u := by
  unfold signal_block
  simp [hc]

lemma camera_block_unmoved_rt (u : PState) (inp : FrameInput)
    (hcm : inp.camera_moved = false) :
    (camera_block u inp).1.rt = u.rt := by
  unfold camera_block
  cases hl : inp.lock_camera with
  | true => rfl
  | false =>
    simp only [hcm, Bool.and_false]
    cases hf : (u.cam.set_fov inp.fov).recalculate_ray_dirs <;>
      simp [hf, calculate_ray_dirs]

lemma frame_no_signal (s : PState) (inp : FrameInput)
    (hforce : s.rt.force_scr_size = false)
    (hsz : inp.new_scr_size = s.rt.scr_size)
    (hcm : inp.camera_moved = false)
    (hsc : inp.scene_changed = false) (hst : inp.settings_changed = false) :
    (frame s inp).1.rt =
      { s.rt with
        first_frame := false
        frame_index := (s.rt.frame_index + 1) % 2 ^ 32
        rendering_to_texture_0 := !s.rt.rendering_to_texture_0 } := by
  have h1 : set_scr_size s inp.new_scr_size = (s, false) := by
    rw [hsz]; exact set_scr_size_noop s hforce
  show (signal_block
      (camera_block (Raytracer.paint (set_scr_size s inp.new_scr_size).1 inp).1
        inp).1 inp).1.rt = _
  rw [h1, signal_block_skip _ inp (by simp [hsc, hst]),
    camera_block_unmoved_rt _ inp hcm, paint_rt]

lemma run_frames_cons (s : PState) (inp : FrameInput)
    (rest : List FrameInput) :
    run_frames s (inp :: rest) = run_frames (frame s inp).1 rest := rfl

lemma run_frames_append (s : PState) (l1 l2 : List FrameInput) :
    run_frames s (l1 ++ l2) = run_frames (run_frames s l1) l2 := by
  induction l1 generalizing s with
  | nil => rfl
  | cons a t ih => rw [List.cons_append, run_frames_cons, run_frames_cons, ih]

lemma run_frames_no_signal :
    ∀ (inputs : List FrameInput) (s : PState),
      s.rt.force_scr_size = false →
      (∀ inp ∈ inputs, NoSignalInput s.rt.scr_size inp) →
      s.rt.frame_index + inputs.length < 2 ^ 32 →
      (run_frames s inputs).rt.frame_index =
        s.rt.frame_index + inputs.length ∧
      (run_frames s inputs).rt.scr_size = s.rt.scr_size ∧
      (run_frames s inputs).rt.force_scr_size = false := by
  intro inputs
  induction inputs with
  | nil => intro s h1 _ _; exact ⟨rfl, rfl, h1⟩
  | cons inp rest ih =>
    intro s h1 h2 h3
    obtain ⟨hsz, hcm, hsc, hst⟩ := h2 inp (List.mem_cons_self inp rest)
    have hframe := frame_no_signal s inp h1 hsz hcm hsc hst
    have hfi1 : (s.rt.frame_index + 1) % 2 ^ 32 = s.rt.frame_index + 1 :=
      Nat.mod_eq_of_lt (by simp only [List.length_cons] at h3; omega)
    have hrt : (frame s inp).1.rt.frame_index = s.rt.frame_index + 1 := by
      rw [hframe]; exact hfi1
    have hscr : (frame s inp).1.rt.scr_size = s.rt.scr_size := by rw [hframe]
    have hforce2 : (frame s inp).1.rt.force_scr_size = false :=
      frame_force_false s inp
    have htail : ∀ inp2 ∈ rest, NoSignalInput (frame s inp).1.rt.scr_size inp2 := by
      intro inp2 hmem
      rw [hscr]
      exact h2 inp2 (List.mem_cons_of_mem inp hmem)
    have hbound2 : (frame s inp).1.rt.frame_index + rest.length < 2 ^ 32 := by
      rw [hrt]; simp only [List.length_cons] at h3; omega
    obtain ⟨ih1, ih2, ih3⟩ := ih (frame s inp).1 hforce2 htail hbound2
    rw [run_frames_cons]
    refine ⟨?_, ?_, ih3⟩
    · rw [ih1, hrt, List.length_cons]; omega
    · rw [ih2, hscr]

/-- Claim C2: along any stretch of frames during which no change
signal is raised (no camera movement, no scene or settings change, no
resize), `frame_index` increases by exactly 1 on every frame and the
ping-pong parity `rendering_to_texture_0` flips on every frame. -/
theorem c2_no_signal_frame_advance (s : PState) (inputs : List FrameInput)
    (hforce : s.rt.force_scr_size = false)
    (h : ∀ inp ∈ inputs, NoSignalInput s.rt.scr_size inp)
    (hbound : s.rt.frame_index + inputs.length < 2 ^ 32) :
    ∀ k, k < inputs.length →
      (run_frames s (inputs.take (k + 1))).rt.frame_index =
        (run_frames s (inputs.take k)).rt.frame_index + 1 ∧
      (run_frames s (inputs.take (k + 1))).rt.rendering_to_texture_0 =
        !(run_frames s (inputs.take k)).rt.rendering_to_texture_0 := by
  intro k hk
  have htk : ∀ inp ∈ inputs.take k, NoSignalInput s.rt.scr_size inp :=
    fun inp hmem => h inp (List.take_subset k inputs hmem)
  have hlen : (inputs.take k).length = k := by rw [List.length_take]; omega
  obtain ⟨hfi, hscr, hfor⟩ :=
    run_frames_no_signal (inputs.take k) s hforce htk (by rw [hlen]; omega)
  have hx : inputs[k]? = some inputs[k] := List.getElem?_eq_getElem hk
  obtain ⟨hsz, hcm, hsc, hst⟩ := h inputs[k] (List.getElem_mem hk)
  have happ : run_frames s (inputs.take (k + 1)) =
      (frame (run_frames s (inputs.take k)) inputs[k]).1 := by
    rw [List.take_succ, hx, run_frames_append]
    rfl
  have hstep := frame_no_signal (run_frames s (inputs.take k)) inputs[k]
    hfor (by rw [hsz, hscr]) hcm hsc hst
  constructor
  · rw [happ, hstep]
    show ((run_frames s (inputs.take k)).rt.frame_index + 1) % 2 ^ 32 = _
    exact Nat.mod_eq_of_lt (by rw [hfi]; omega)
  · rw [happ, hstep]

/-- Concrete instantiation of the frame-advance theorem: on the second
quiet frame of a fresh `800 × 600` pipeline the frame index goes up by
one and the parity flips. -/
theorem c2_no_signal_frame_advance_witness :
    (run_frames c2_init (c2_inputs.take 2)).rt.frame_index =
      (run_frames c2_init (c2_inputs.take 1)).rt.frame_index + 1 ∧
    (run_frames c2_init (c2_inputs.take 2)).rt.rendering_to_texture_0 =
      !(run_frames c2_init (c2_inputs.take 1)).rt.rendering_to_texture_0 :=
  c2_no_signal_frame_advance c2_init c2_inputs rfl (by decide) (by decide)
    1 (by decide)

lemma signal_block_fires (u : PState) (inp : FrameInput)
    (hc : (inp.settings_changed || inp.scene_changed) = true) :
    (signal_block u inp).1.rt.frame_index = 1 ∧
    (signal_block u inp).1.tex = clear_textures u.tex := by
  unfold signal_block
  simp [hc]

lemma camera_block_moved (u : PState) (inp : FrameInput)
    (hl : inp.lock_camera = false)
    (hm : (!inp.ui_focused && inp.camera_moved) = true) :
    (camera_block u inp).1.rt.frame_index = 1 ∧
    (camera_block u inp).1.tex.noise_texture_0 = .zero ∧
    (camera_block u inp).1.tex.noise_texture_1 = .zero ∧
    (camera_block u inp).1.tex.accumulation_texture_0 = .zero ∧
    (camera_block u inp).1.tex.accumulation_texture_1 = .zero := by
  unfold camera_block
  simp [hl, hm, Camera.recalc_view, calculate_ray_dirs, clear_textures,
    Textures.write]

lemma noise_step_acc (u : PState) :
    (noise_step u).1.tex.accumulation_texture_0 =
      u.tex.accumulation_texture_0 ∧
    (noise_step u).1.tex.accumulation_texture_1 =
      u.tex.accumulation_texture_1 ∧
    (noise_step u).1.rt = u.rt := by
  unfold noise_step noise_write_tex
  cases h : u.rt.rendering_to_texture_0 <;> simp [Textures.write]

/-- Claim C1 (amended): when a frame raises the camera-moved, the
scene-changed or the settings-changed signal, the paint callback
leaves `frame_index = 1` and both noise textures and both accumulation
textures cleared to all-zero, and if the following frame performs no
resize, its accumulation pass still starts with `frame_index = 1` and
both accumulation buffers all-zero.  (The `resized` signal is
excluded: a resize reallocates the buffers with undefined contents and
never clears them — see the counterexample.) -/
theorem c1_invalidation_clears_before_next_accum (s : PState)
    (inp : FrameInput)
    (hsig : (camera_moves inp || inp.scene_changed ||
      inp.settings_changed) = true) :
    ((frame s inp).1.rt.frame_index = 1 ∧
     (frame s inp).1.tex.noise_texture_0 = .zero ∧
     (frame s inp).1.tex.noise_texture_1 = .zero ∧
     (frame s inp).1.tex.accumulation_texture_0 = .zero ∧
     (frame s inp).1.tex.accumulation_texture_1 = .zero) ∧
    (∀ inp2 : FrameInput, inp2.new_scr_size = (frame s inp).1.rt.scr_size →
      (before_accum (frame s inp).1 inp2).rt.frame_index = 1 ∧
      (before_accum (frame s inp).1 inp2).tex.accumulation_texture_0 =
        .zero ∧
      (before_accum (frame s inp).1 inp2).tex.accumulation_texture_1 =
        .zero) := by
  have hpart1 : (frame s inp).1.rt.frame_index = 1 ∧
      (frame s inp).1.tex.noise_texture_0 = .zero ∧
      (frame s inp).1.tex.noise_texture_1 = .zero ∧
      (frame s inp).1.tex.accumulation_texture_0 = .zero ∧
      (frame s inp).1.tex.accumulation_texture_1 = .zero := by
    have heq : (frame s inp).1 =
        (signal_block
          (camera_block
            (Raytracer.paint (set_scr_size s inp.new_scr_size).1 inp).1
            inp).1 inp).1 := rfl
    cases hresp : (inp.settings_changed || inp.scene_changed) with
    | true =>
      obtain ⟨hfi, htex⟩ := signal_block_fires
        (camera_block
          (Raytracer.paint (set_scr_size s inp.new_scr_size).1 inp).1 inp).1
        inp hresp
      rw [heq, htex]
      exact ⟨hfi, rfl, rfl, rfl, rfl⟩
    | false =>
      obtain ⟨hst2, hsc2⟩ : inp.settings_changed = false ∧
          inp.scene_changed = false := by
        cases h1 : inp.settings_changed <;> cases h2 : inp.scene_changed <;>
          simp_all
      have hmv : camera_moves inp = true := by
        rw [hsc2, hst2] at hsig
        simpa using hsig
      unfold camera_moves at hmv
      rw [Bool.and_eq_true_iff] at hmv
      obtain ⟨hl, hm⟩ := hmv
      rw [Bool.not_eq_true'] at hl
      have hcb := camera_block_moved
        (Raytracer.paint (set_scr_size s inp.new_scr_size).1 inp).1 inp hl hm
      have hskip := signal_block_skip
        (camera_block
          (Raytracer.paint (set_scr_size s inp.new_scr_size).1 inp).1 inp).1
        inp hresp
      rw [heq, hskip]
      exact hcb
  refine ⟨hpart1, fun inp2 hsz2 => ?_⟩
  have hnoop : set_scr_size (frame s inp).1 inp2.new_scr_size =
      ((frame s inp).1, false) := by
    rw [hsz2]
    exact set_scr_size_noop (frame s inp).1 (frame_force_false s inp)
  obtain ⟨ha0, ha1, hart⟩ := noise_step_acc (frame s inp).1
  unfold before_accum
  rw [hnoop]
  refine ⟨?_, ?_, ?_⟩
  · rw [hart]; exact hpart1.1
  · rw [ha0]; exact hpart1.2.2.2.1
  · rw [ha1]; exact hpart1.2.2.2.2

/-- Concrete instantiation of the invalidation theorem: a
scene-changed frame on the mid-run state resets `frame_index` to 1 and
zeroes all four buffers, and the next frame's accumulation pass still
sees zeroed accumulation buffers. -/
theorem c1_invalidation_clears_before_next_accum_witness :
    ((frame c1_state c1_scene_input).1.rt.frame_index = 1 ∧
     (frame c1_state c1_scene_input).1.tex.noise_texture_0 = .zero ∧
     (frame c1_state c1_scene_input).1.tex.noise_texture_1 = .zero ∧
     (frame c1_state c1_scene_input).1.tex.accumulation_texture_0 = .zero ∧
     (frame c1_state c1_scene_input).1.tex.accumulation_texture_1 = .zero) ∧
    ((before_accum (frame c1_state c1_scene_input).1
        c1_scene_input).rt.frame_index = 1 ∧
     (before_accum (frame c1_state c1_scene_input).1
        c1_scene_input).tex.accumulation_texture_0 = .zero ∧
     (before_accum (frame c1_state c1_scene_input).1
        c1_scene_input).tex.accumulation_texture_1 = .zero) := by
  have h := c1_invalidation_clears_before_next_accum c1_state c1_scene_input
    (by decide)
  exact ⟨h.1, h.2 c1_scene_input (by decide)⟩

/-- Claim C1 counterexample: a frame whose only change signal is a
resize reaches its own accumulation pass with both accumulation
buffers (and the noise input) merely reallocated — `uninit`, not
zero — and the callback performs no clear at all; so the claim that
every change signal forces a zero-clear of the buffers before the next
accumulation pass is false for `resized`. -/
theorem c1_resize_clears_nothing_counterexample :
    (c1_state.rt.scr_size == c1_resize_input.new_scr_size) = false ∧
    resize_fires c1_state c1_resize_input = true ∧
    (before_accum c1_state c1_resize_input).rt.frame_index = 1 ∧
    (before_accum c1_state c1_resize_input).tex.accumulation_texture_0 =
      .uninit ∧
    (before_accum c1_state c1_resize_input).tex.accumulation_texture_1 =
      .uninit ∧
    (frame c1_state c1_resize_input).2.count Ev.clear = 0 := by
  decide

lemma paint_cam (u : PState) (inp : FrameInput) :
    (Raytracer.paint u inp).1.cam = u.cam := rfl

lemma signal_block_cam (u : PState) (inp : FrameInput) :
    (signal_block u inp).1.cam = u.cam := by
  unfold signal_block
  split <;> rfl

lemma set_scr_size_cam (s : PState) (v : Vec2) :
    (set_scr_size s v).1.cam.recalculate_ray_dirs =
      (s.cam.recalculate_ray_dirs || (set_scr_size s v).2) ∧
    (set_scr_size s v).1.cam.vertical_fov = s.cam.vertical_fov := by
  unfold set_scr_size
  cases hf : s.rt.force_scr_size with
  | true => simp [hf, Camera.set_scr_size, Camera.recalc_proj]
  | false =>
    split
    · simp_all
    · split
      · constructor <;> simp
      · constructor <;> simp [Camera.set_scr_size, Camera.recalc_proj]

lemma set_fov_flag (c : Camera) (f : ℚ) :
    (c.set_fov f).recalculate_ray_dirs =
      (c.recalculate_ray_dirs || !decide (|f - c.vertical_fov| ≤ f32_epsilon)) := by
  unfold Camera.set_fov Camera.recalc_proj
  split <;> simp [*]

lemma camera_block_count (u : PState) (inp : FrameInput)
    (hl : inp.lock_camera = false) :
    (camera_block u inp).2.count Ev.ray_dirs_pass =
      (if (u.cam.recalculate_ray_dirs || fov_changes u.cam inp ||
          (!inp.ui_focused && inp.camera_moved)) then 1 else 0) ∧
    (camera_block u inp).1.cam.recalculate_ray_dirs = false := by
  unfold camera_block
  cases hm : (!inp.ui_focused && inp.camera_moved) with
  | true =>
    simp [hl, hm, Camera.recalc_view, calculate_ray_dirs]
  | false =>
    cases hf2 : (u.cam.set_fov inp.fov).recalculate_ray_dirs with
    | true =>
      have hf3 := hf2
      rw [set_fov_flag] at hf3
      simp [hl, hm, hf2, hf3, fov_changes, calculate_ray_dirs]
    | false =>
      rw [set_fov_flag] at hf2
      have hflag : u.cam.recalculate_ray_dirs = false := by
        cases h : u.cam.recalculate_ray_dirs <;> simp_all
      have hfov : (!decide (|inp.fov - u.cam.vertical_fov| ≤ f32_epsilon)) =
          false := by
        cases h : decide (|inp.fov - u.cam.vertical_fov| ≤ f32_epsilon) <;>
          simp_all
      simp [hl, hm, set_fov_flag, hflag, hfov, fov_changes]

lemma camera_block_locked (u : PState) (inp : FrameInput)
    (hl : inp.lock_camera = true) :
    camera_block u inp = (u, []) := by
  unfold camera_block
  simp [hl]

lemma count_ray_dirs_paint (u : PState) (inp : FrameInput) :
    (Raytracer.paint u inp).2.count Ev.ray_dirs_pass = 0 := by
  simp [Raytracer.paint, noise_step, accum_step, final_step, List.count_cons]

lemma count_ray_dirs_realloc_part (b : Bool) :
    (if b then [Ev.realloc] else []).count Ev.ray_dirs_pass = 0 := by
  cases b <;> rfl

lemma count_ray_dirs_signal_block (u : PState) (inp : FrameInput) :
    (signal_block u inp).2.count Ev.ray_dirs_pass = 0 := by
  unfold signal_block
  split <;> rfl

/-- Claim C4 (amended): the ray-direction pass never runs while the
camera is locked; with the camera unlocked it runs exactly once on a
frame precisely when a recalculation trigger is pending (a request
deferred from an earlier frame, a resize, an FOV change, or a camera
move this frame) and the pending flag is consumed; and within a frame
the pass always runs after that frame's accumulation pass, so a resize
forces the single recomputation only before the *following* frame's
accumulation pass, and not at all while the camera stays locked. -/
theorem c4_ray_dirs_pass_schedule :
    (∀ (s : PState) (inp : FrameInput), inp.lock_camera = true →
      (frame s inp).2.count Ev.ray_dirs_pass = 0) ∧
    (∀ (s : PState) (inp : FrameInput), inp.lock_camera = false →
      (frame s inp).2.count Ev.ray_dirs_pass =
        (if ray_dirs_trigger s inp then 1 else 0) ∧
      (frame s inp).1.cam.recalculate_ray_dirs = false) ∧
    (∀ (s : PState) (inp : FrameInput),
      ((frame s inp).2.takeWhile (fun e => !e.isAccum)).count
        Ev.ray_dirs_pass = 0) := by
  refine ⟨fun s inp hl => ?_, fun s inp hl => ⟨?_, ?_⟩, fun s inp => ?_⟩
  · rw [frame_log_eq]
    rw [camera_block_locked _ inp hl]
    simp only [List.count_append]
    rw [count_ray_dirs_realloc_part, count_ray_dirs_signal_block]
    have := count_ray_dirs_paint (set_scr_size s inp.new_scr_size).1 inp
    simp only [Raytracer.paint] at this
    simp [List.count_cons, List.count_nil]
  · rw [frame_log_eq]
    simp only [List.count_append]
    rw [count_ray_dirs_realloc_part, count_ray_dirs_signal_block]
    have hcb := (camera_block_count
      (Raytracer.paint (set_scr_size s inp.new_scr_size).1 inp).1 inp hl).1
    rw [paint_cam] at hcb
    have hflag := (set_scr_size_cam s inp.new_scr_size).1
    have hfov := (set_scr_size_cam s inp.new_scr_size).2
    have hfc : fov_changes (set_scr_size s inp.new_scr_size).1.cam inp =
        fov_changes s.cam inp := by
      unfold fov_changes
      rw [hfov]
    rw [hflag, hfc] at hcb
    rw [hcb]
    simp only [ray_dirs_trigger, resize_fires]
    simp [List.count_cons, List.count_nil]
  · show (signal_block
        (camera_block
          (Raytracer.paint (set_scr_size s inp.new_scr_size).1 inp).1
          inp).1 inp).1.cam.recalculate_ray_dirs = false
    rw [signal_block_cam]
    exact (camera_block_count
      (Raytracer.paint (set_scr_size s inp.new_scr_size).1 inp).1 inp hl).2
  · rw [frame_log_eq]
    cases hres : (set_scr_size s inp.new_scr_size).2 <;>
      simp [List.takeWhile_cons, Ev.isAccum, List.count_cons, List.count_nil]

/-- Concrete instantiation of the scheduling theorem: a locked quiet
frame runs no ray-direction pass; an unlocked camera-move frame runs
it exactly once and consumes the request flag; and no ray-direction
pass precedes the accumulation pass within a frame. -/
theorem c4_ray_dirs_pass_schedule_witness :
    (frame c4_state c4_locked_input).2.count Ev.ray_dirs_pass = 0 ∧
    ray_dirs_trigger c4_state c4_move_input = true ∧
    (frame c4_state c4_move_input).2.count Ev.ray_dirs_pass = 1 ∧
    (frame c4_state c4_move_input).1.cam.recalculate_ray_dirs = false ∧
    ((frame c4_state c4_locked_input).2.takeWhile
      (fun e => !e.isAccum)).count Ev.ray_dirs_pass = 0 := by
  have h1 := c4_ray_dirs_pass_schedule.1 c4_state c4_locked_input rfl
  have h2 := c4_ray_dirs_pass_schedule.2.1 c4_state c4_move_input rfl
  have h3 := c4_ray_dirs_pass_schedule.2.2 c4_state c4_locked_input
  have htr : ray_dirs_trigger c4_state c4_move_input = true := by
    simp [ray_dirs_trigger, c4_move_input]
  refine ⟨h1, htr, ?_, h2.2, h3⟩
  rw [h2.1, htr]
  rfl

/-- Claim C4 counterexample: with `lock_camera` enabled, a resize
marks the camera's recalculation flag but over the resize frame and
the following frame — which together issue two accumulation passes —
the ray-direction pass never runs, so a resize does not force exactly
one ray-direction recomputation before the next accumulation pass. -/
theorem c4_locked_resize_skips_ray_dirs_counterexample :
    resize_fires c4_state c4_resize_locked_input = true ∧
    (frame c4_state c4_resize_locked_input).1.cam.recalculate_ray_dirs =
      true ∧
    ((frame c4_state c4_resize_locked_input).2 ++
      (frame (frame c4_state c4_resize_locked_input).1
        c4_quiet_locked_input).2).count Ev.ray_dirs_pass = 0 ∧
    (((frame c4_state c4_resize_locked_input).2 ++
      (frame (frame c4_state c4_resize_locked_input).1
        c4_quiet_locked_input).2).filter Ev.isAccum).length = 2 := by
  decide

